import Mathlib

/-!
A shallow embedding of the ranking / deduplication / publishing pipeline of
`contract_tweets.py` (GovContractTweets), together with theorems settling the
spec claims about it.

Modelling conventions:
* Python dict keys that may be absent are `Option` fields; `none` means the
  key is absent.  A string field whose Python truthiness matters is tested
  with `s ≠ ""` (Python's falsy `''`).
* Numeric record fields pass through `float(...)`, which can raise
  `ValueError`; such a field is `RawNum`: `missing` (key absent or falsy
  value), `bad` (present and truthy but not parseable as a float), or
  `num q` (parses to the rational `q`).  Floats are modelled as `ℚ`.
* The response deadline is `RawDeadline`: `missing` (key absent or empty),
  `bad` (present but `datetime.fromisoformat` raises `ValueError`), or
  `time t` (parses; `t` is the resulting UTC timestamp in epoch seconds).
* Wall-clock reads become explicit parameters: `now` is the epoch-second
  value of `datetime.now(timezone.utc)` taken at the top of
  `rank_contracts`, and `tnow` the value returned by `time.time()` during
  the run.
* Timestamps rendered for display (`strftime`) are kept as their underlying
  timestamp / amount, since no claim depends on the rendered text.
* An uncaught exception (the `AttributeError` raised by
  `deadline.strftime(...)` when `deadline` is `None`, which the
  `except (ValueError, KeyError)` clause does not catch) aborts the whole
  call; `rank_contracts` therefore returns `Except Unit _`.
-/

inductive RawNum where
  | missing : RawNum
  | bad : RawNum
  | num : ℚ → RawNum
deriving DecidableEq

inductive RawDeadline where
  | missing : RawDeadline
  | bad : RawDeadline
  | time : Int → RawDeadline
deriving DecidableEq

/-- A raw opportunity record as consumed by `rank_contracts` (the fields the
function reads, with Python's key-absence encoded by `Option`/`RawNum`). -/
structure RawContract where
  id_field : Option String
  noticeId : Option String
  title : Option String
  award_amount : RawNum
  fundingCeiling : RawNum
  estimatedTotalContractValue : RawNum
  responseDeadLine : RawDeadline
  typeOfSetAside : Option String
  typeOfSetAsideDescription : Option String
  fullParentPathName : Option String
  naicsCode : Option String
  placeOfPerformance : Option (String × String)
  uiLink : Option String
deriving DecidableEq

/-- The dict appended to `valid_contracts` (display-formatted deadline/value
are kept as the underlying `Option` timestamp/amount). -/
structure ValidContract where
  id : String
  title : String
  deadline : Option Int
  agency : String
  url : String
  set_aside : String
  value : Option ℚ
  naics : String
  location : String
  score : ℚ
  value_raw : ℚ
  missing_fields : List String
deriving DecidableEq

/-- Outcome of the loop body of `rank_contracts` for one record:
appended (`ok`), `continue`d via the `except (ValueError, KeyError)` handler
(`skip`), `continue`d by the expiry check (`expired`), or an uncaught
exception (`crash`). -/
inductive ProcResult where
  | ok : ValidContract → ProcResult
  | skip : ProcResult
  | expired : ProcResult
  | crash : ProcResult
deriving DecidableEq

/-- Python truthiness of an optional string value. -/
def truthyStr : Option String → Bool
  | some s => s ≠ ""
  | none => false

/-- Lines 172–184: contract value resolution, `award.amount` then
`fundingCeiling` then `estimatedTotalContractValue`; a `float(...)` failure
raises `ValueError` (the `Except.error` case, caught by the loop's handler). -/
def resolveValue (c : RawContract) : Except Unit (Option ℚ) :=
  match c.award_amount with
  | RawNum.num v => Except.ok (some v)
  | RawNum.bad => Except.error ()
  | RawNum.missing =>
    match c.fundingCeiling with
    | RawNum.num v => Except.ok (some v)
    | RawNum.bad => Except.error ()
    | RawNum.missing =>
      match c.estimatedTotalContractValue with
      | RawNum.num v => Except.ok (some v)
      | RawNum.bad => Except.error ()
      | RawNum.missing => Except.ok none

/-- Lines 186–199: parse `responseDeadLine`; returns `(deadline,
days_until_due)`.  `days_until_due = (deadline - now).days`, i.e. the floor
of the difference in seconds divided by 86400 (`Int.fdiv`).  An unparseable
or absent deadline leaves both `None`. -/
def parseDeadline (now : Int) : RawDeadline → Option Int × Option Int
  | RawDeadline.missing => (none, none)
  | RawDeadline.bad => (none, none)
  | RawDeadline.time t => (some t, some (Int.fdiv (t - now) 86400))

/-- Lines 201–203: `if days_until_due is not None and days_until_due < 0`. -/
def expiredCheck : Option Int → Bool
  | some d => d < 0
  | none => false

/-- Lines 205–208: `value_score = min(50, value / 100000)` when `value` is
truthy (non-`None` and non-zero), else `0`. -/
def valueScore : Option ℚ → ℚ
  | some v => if v = 0 then 0 else min 50 (v / 100000)
  | none => 0

/-- Lines 210–214: `30 * (1 - days/30)` clamped to `[0, 30]`;
`None` days yields `0`. -/
def urgencyScore : Option Int → ℚ
  | some d => max 0 (min 30 (30 * (1 - (d : ℚ) / 30)))
  | none => 0

/-- Lines 216–225: set-aside score table, default `0`. -/
def setAsideScore (s : String) : ℚ :=
  if s = "SDVOSB" then 20
  else if s = "WOSB" then 20
  else if s = "8A" then 15
  else if s = "HUBZone" then 15
  else if s = "VOSB" then 15
  else if s = "SBA" then 10
  else 0

/-- Lines 242–246: `typeOfSetAsideDescription or
contract.get('typeOfSetAside', 'Open Competition')`, then the empty-string
fallback.  Returns the description and whether `'set_aside'` was appended to
`missing_fields`. -/
def setAsideDescOf (c : RawContract) : String × Bool :=
  let x :=
    if truthyStr c.typeOfSetAsideDescription then
      c.typeOfSetAsideDescription.getD ""
    else
      match c.typeOfSetAside with
      | some s => s
      | none => "Open Competition"
  if x = "" then ("Open Competition", true) else (x, false)

/-- Python's `str.split('.')`: split at every `'.'`; the empty string yields
`['']`. -/
def splitDotAux : List Char → List Char → List String
  | [], acc => [String.mk acc.reverse]
  | ch :: rest, acc =>
    if ch = '.' then String.mk acc.reverse :: splitDotAux rest []
    else splitDotAux rest (ch :: acc)

def splitDot (s : String) : List String :=
  splitDotAux s.toList []

/-- Lines 249–250: `contract.get('fullParentPathName', '').split('.')` and
its last element; the `'Federal Government'` fallback fires only on an empty
list (which `str.split` never produces). -/
def agencyOf (c : RawContract) : String :=
  (splitDot (c.fullParentPathName.getD "")).getLastD "Federal Government"

/-- Lines 259–270: place of performance; `none` models a falsy/absent
`placeOfPerformance`, otherwise `(state, city)` with `''` for absent keys. -/
def locationOf : Option (String × String) → String
  | none => "Multiple Locations"
  | some (state, city) =>
    if city ≠ "" ∧ state ≠ "" then city ++ ", " ++ state
    else if state ≠ "" then state
    else "Multiple Locations"

/-- Lines 168–270: the `missing_fields` list accumulated for one record, in
append order (`'agency'` is never appended since the split list is never
empty). -/
def missingFieldsOf (c : RawContract) (value : Option ℚ) : List String :=
  (if value = none then ["contract_value"] else []) ++
  (if (setAsideDescOf c).2 then ["set_aside"] else []) ++
  (if c.naicsCode.getD "Not Specified" = "" then ["naics_code"] else []) ++
  (if c.placeOfPerformance = none then ["place_of_performance"] else [])

/-- Lines 276–289: build the dict appended to `valid_contracts`.  The
default argument of `contract.get('noticeId', f"{contract['title']}_{int(time.time())}")`
is evaluated unconditionally, so an absent `title` raises `KeyError`
(→ `skip`) even when `noticeId` is present. -/
def mkValid (tnow : Int) (c : RawContract) (value : Option ℚ)
    (deadline : Option Int) (score : ℚ) : ProcResult :=
  match c.title with
  | none => ProcResult.skip
  | some t =>
    ProcResult.ok
      { id := match c.noticeId with
              | some n => n
              | none => t ++ "_" ++ toString tnow
        title := t
        deadline := deadline
        agency := agencyOf c
        url := c.uiLink.getD ""
        set_aside := (setAsideDescOf c).1
        value := match value with
                 | some v => if v = 0 then none else some v
                 | none => none
        naics := c.naicsCode.getD "Not Specified"
        location := locationOf c.placeOfPerformance
        score := score
        value_raw := value.getD 0
        missing_fields := missingFieldsOf c value }

/-- Lines 166–295: the loop body of `rank_contracts` for one record.  Line
230 (`contract_id = contract.get('id') or contract.get('noticeId') or
f"{contract['title']}_{deadline.strftime('%Y%m%d')}"`) is evaluated even
though its result is unused: when both identifiers are falsy it reads
`contract['title']` (`KeyError` → skip) and then calls
`deadline.strftime(...)`, which raises an uncaught `AttributeError` when
`deadline` is `None` (→ crash). -/
def processContract (now tnow : Int) (c : RawContract) : ProcResult :=
  match resolveValue c with
  | Except.error _ => ProcResult.skip
  | Except.ok value =>
    let dd := parseDeadline now c.responseDeadLine
    if expiredCheck dd.2 then ProcResult.expired
    else
      let final_score :=
        valueScore value + urgencyScore dd.2 +
          setAsideScore (c.typeOfSetAside.getD "")
      if truthyStr c.id_field then mkValid tnow c value dd.1 final_score
      else if truthyStr c.noticeId then mkValid tnow c value dd.1 final_score
      else
        match c.title with
        | none => ProcResult.skip
        | some _ =>
          match dd.1 with
          | none => ProcResult.crash
          | some _ => mkValid tnow c value dd.1 final_score

/-- The `for contract in contracts:` loop of lines 166–295: `skip`/`expired`
continue, `ok` appends, `crash` propagates the exception. -/
def processAll (now tnow : Int) : List RawContract → Except Unit (List ValidContract)
  | [] => Except.ok []
  | c :: rest =>
    match processContract now tnow c with
    | ProcResult.crash => Except.error ()
    | ProcResult.skip => processAll now tnow rest
    | ProcResult.expired => processAll now tnow rest
    | ProcResult.ok v => (processAll now tnow rest).map (fun l => v :: l)

/-- Stable insertion into a list sorted descending by `score`: `x` goes
before the first element whose score is not greater (so earlier input wins
ties), exactly the order produced by Python's stable
`sorted(key=..., reverse=True)`. -/
def insertByScore (x : ValidContract) : List ValidContract → List ValidContract
  | [] => [x]
  | y :: ys => if x.score < y.score then y :: insertByScore x ys else x :: y :: ys

/-- Line 302: `sorted(valid_contracts, key=lambda x: x['score'],
reverse=True)` — a stable sort, descending by score only. -/
def sortDesc : List ValidContract → List ValidContract
  | [] => []
  | x :: xs => insertByScore x (sortDesc xs)

/-- Lines 161–304: `rank_contracts`.  `Except.error` is the uncaught
`AttributeError` escaping the call. -/
def rank_contracts (now tnow : Int) (contracts : List RawContract) :
    Except Unit (List ValidContract) :=
  match processAll now tnow contracts with
  | Except.error e => Except.error e
  | Except.ok valid =>
    if valid = [] then Except.ok []
    else Except.ok ((sortDesc valid).take 5)

/-- One row of the `contracts` table created by `setup_database`
(lines 34–46; the autoincrement surrogate key is omitted, `contract_id`
is the unique key the spec calls the ledger key). -/
structure LedgerRow where
  contract_id : String
  title : String
  posted_at : String
  value : ℚ
  score : ℚ
  agency : String
  due_date : String
  url : String
deriving DecidableEq

/-- The state of `contracts.db` relevant to `setup_database`: the
`contracts` table with its rows, or `none` when the table does not exist. -/
structure ContractsDB where
  contracts : Option (List LedgerRow)
deriving DecidableEq

/-- Line 32: `DROP TABLE IF EXISTS contracts`. -/
def dropTableIfExists (_db : ContractsDB) : ContractsDB :=
  { contracts := none }

/-- Lines 34–46: `CREATE TABLE IF NOT EXISTS contracts (...)`. -/
def createTableIfNotExists (db : ContractsDB) : ContractsDB :=
  match db.contracts with
  | some rows => { contracts := some rows }
  | none => { contracts := some [] }

/-- Lines 26–48: `setup_database` — the statements it executes against the
store, in order.  (The returned connection is irrelevant here.) -/
def setup_database (db : ContractsDB) : ContractsDB :=
  createTableIfNotExists (dropTableIfExists db)

/-- Observable effects of one call to `post_contract_tweet`: number of
`create_tweet` calls, number of `time.sleep(5)` backoff delays, number of
database writes performed (the function body contains no database
operation, so this is always `0`), and the returned boolean. -/
structure PostTrace where
  calls : Nat
  sleeps : Nat
  ledgerWrites : Nat
  result : Bool
deriving DecidableEq

/-- Lines 375–394: the `while retry_count < max_retries` loop of
`post_contract_tweet`.  `publish n` tells whether the `n`-th
`create_tweet` call succeeds with truthy response data (`false` covers
both an exception and falsy `response.data`).  `fuel` bounds the
recursion; `max_retries - retry_count` always suffices. -/
def tweetLoop (publish : Nat → Bool) (max_retries : Nat) :
    Nat → Nat → Nat → Nat → PostTrace
  | 0, _, calls, sleeps => ⟨calls, sleeps, 0, false⟩
  | fuel + 1, retry_count, calls, sleeps =>
    if retry_count < max_retries then
      if publish (calls + 1) then ⟨calls + 1, sleeps, 0, true⟩
      else
        if retry_count + 1 < max_retries then
          tweetLoop publish max_retries fuel (retry_count + 1) (calls + 1) (sleeps + 1)
        else ⟨calls + 1, sleeps, 0, false⟩
    else ⟨calls, sleeps, 0, false⟩

/-- Lines 370–394: `post_contract_tweet` with `max_retries = 3`. -/
def post_contract_tweet (publish : Nat → Bool) : PostTrace :=
  tweetLoop publish 3 3 0 0 0

/-- A raw record with every key absent, used as the base of the concrete
test records below. -/
def blankRec : RawContract :=
  { id_field := none, noticeId := none, title := none,
    award_amount := RawNum.missing, fundingCeiling := RawNum.missing,
    estimatedTotalContractValue := RawNum.missing,
    responseDeadLine := RawDeadline.missing,
    typeOfSetAside := none, typeOfSetAsideDescription := none,
    fullParentPathName := none, naicsCode := none,
    placeOfPerformance := none, uiLink := none }

/-- Scenario A of the spec: award amount $2,000,000, deadline equal to
`now` (taken as epoch `0`), set-aside SDVOSB. -/
def scenarioA : RawContract :=
  { blankRec with
    title := some "Scenario A", noticeId := some "NA1",
    award_amount := RawNum.num 2000000,
    responseDeadLine := RawDeadline.time 0,
    typeOfSetAside := some "SDVOSB" }

/-- A record whose award amount parses to a negative number. -/
def cNeg : RawContract :=
  { blankRec with
    title := some "Neg", noticeId := some "N9",
    award_amount := RawNum.num (-10000000) }

/-- A record with no explicit identifier and a near-future deadline. -/
def noIdRec : RawContract :=
  { blankRec with
    title := some "Road Repair",
    responseDeadLine := RawDeadline.time 50 }

/-- A record with no explicit identifier, used twice in a batch. -/
def dupRec : RawContract :=
  { blankRec with
    title := some "T",
    responseDeadLine := RawDeadline.time 1000 }

/-- A record whose deadline string is present but unparseable and which has
no `id`/`noticeId` key. -/
def badDeadlineRec : RawContract :=
  { blankRec with
    title := some "Bridge Repair",
    responseDeadLine := RawDeadline.bad }

/-- A record with an absent deadline and no `id`/`noticeId` key. -/
def openEndedRec : RawContract :=
  { blankRec with
    title := some "Paving" }

/-- Two otherwise identical zero-score records whose notice ids are out of
lexicographic order when listed as `[rB, rA]`. -/
def rB : RawContract :=
  { blankRec with
    title := some "T", noticeId := some "b" }

def rA : RawContract :=
  { blankRec with
    title := some "T", noticeId := some "a" }

/-- An expired record (deadline about 28 hours before `now = 0`). -/
def cExpired : RawContract :=
  { blankRec with
    title := some "T", noticeId := some "N3",
    responseDeadLine := RawDeadline.time (-100000) }

/-- A record whose title is present but empty. -/
def empTitleRec : RawContract :=
  { blankRec with
    title := some "", noticeId := some "N1" }

/-- A record with only a title and a notice id, every optional field
absent. -/
def plainRec (t n : String) : RawContract :=
  { blankRec with
    title := some t, noticeId := some n }

/-- The entry `plainRec t n` normalizes to (for any `now`, `tnow`, and
truthy `n`). -/
def plainEntry (t n : String) : ValidContract :=
  { id := n, title := t, deadline := none, agency := "", url := "",
    set_aside := "Open Competition", value := none,
    naics := "Not Specified", location := "Multiple Locations",
    score := 0, value_raw := 0,
    missing_fields := ["contract_value", "place_of_performance"] }

/-- A record with a large positive award amount, for the score-bounds
witness. -/
def cBig : RawContract :=
  { blankRec with
    title := some "T", noticeId := some "N2",
    award_amount := RawNum.num 5000000 }

/-- The entry `cBig` normalizes to. -/
def entryBig : ValidContract :=
  { id := "N2", title := "T", deadline := none, agency := "", url := "",
    set_aside := "Open Competition", value := some 5000000,
    naics := "Not Specified", location := "Multiple Locations",
    score := 50, value_raw := 5000000,
    missing_fields := ["place_of_performance"] }

/-- The entry each copy of `dupRec` normalizes to in a run with `now = 0`
and `tnow = 5` (deadline 1000 seconds out, so `days_until_due = 0` and the
urgency score is maximal). -/
def dupEntry : ValidContract :=
  { id := "T_5", title := "T", deadline := some 1000, agency := "",
    url := "", set_aside := "Open Competition", value := none,
    naics := "Not Specified", location := "Multiple Locations",
    score := 30, value_raw := 0,
    missing_fields := ["contract_value", "place_of_performance"] }

/-- An announced-contract ledger row already present in the store. -/
def row0 : LedgerRow :=
  { contract_id := "N0001", title := "Old contract",
    posted_at := "2024-01-01", value := 100000, score := 55,
    agency := "GSA", due_date := "2024-02-01",
    url := "https://sam.gov/opp/N0001" }

/-! ### Helper lemmas about the scorer components -/

theorem fdiv_1000_86400 : Int.fdiv 1000 86400 = 0 := rfl

theorem valueScore_le (value : Option ℚ) : valueScore value ≤ 50 := by
  cases value with
  | none => norm_num [valueScore]
  | some v =>
    by_cases h : v = 0
    · simp [valueScore, h]
    · simp only [valueScore, if_neg h]
      exact min_le_left _ _

theorem valueScore_nonneg (value : Option ℚ)
    (hv : ∀ q, value = some q → 0 ≤ q) : 0 ≤ valueScore value := by
  cases value with
  | none => norm_num [valueScore]
  | some v =>
    have h0 : 0 ≤ v := hv v rfl
    by_cases h : v = 0
    · simp [valueScore, h]
    · simp only [valueScore, if_neg h]
      exact le_min (by norm_num) (div_nonneg h0 (by norm_num))

theorem urgencyScore_nonneg (d : Option Int) : 0 ≤ urgencyScore d := by
  cases d with
  | none => norm_num [urgencyScore]
  | some d => exact le_max_left _ _

theorem urgencyScore_le (d : Option Int) : urgencyScore d ≤ 30 := by
  cases d with
  | none => norm_num [urgencyScore]
  | some d => exact max_le (by norm_num) (min_le_left _ _)

theorem setAsideScore_nonneg (s : String) : 0 ≤ setAsideScore s := by
  unfold setAsideScore
  split_ifs <;> norm_num

theorem setAsideScore_le (s : String) : setAsideScore s ≤ 20 := by
  unfold setAsideScore
  split_ifs <;> norm_num

/-! ### Helper lemmas about `processContract` and `rank_contracts` -/

theorem mkValid_ok_score {tnow : Int} {c : RawContract} {value : Option ℚ}
    {deadline : Option Int} {s : ℚ} {v : ValidContract}
    (h : mkValid tnow c value deadline s = ProcResult.ok v) : v.score = s := by
  unfold mkValid at h
  cases ht : c.title with
  | none => rw [ht] at h; cases h
  | some t => rw [ht] at h; cases h; rfl

theorem score_decomp {now tnow : Int} {c : RawContract} {v : ValidContract}
    (h : processContract now tnow c = ProcResult.ok v) :
    ∃ value, resolveValue c = Except.ok value ∧
      v.score = valueScore value +
        urgencyScore (parseDeadline now c.responseDeadLine).2 +
        setAsideScore (c.typeOfSetAside.getD "") := by
  unfold processContract at h
  cases hv : resolveValue c with
  | error e => rw [hv] at h; cases h
  | ok value =>
    rw [hv] at h
    refine ⟨value, rfl, ?_⟩
    dsimp only at h
    split at h
    · cases h
    · split at h
      · exact mkValid_ok_score h
      · split at h
        · exact mkValid_ok_score h
        · split at h
          · cases h
          · split at h
            · cases h
            · exact mkValid_ok_score h

theorem processAll_mem {now tnow : Int} {l : List RawContract}
    {out : List ValidContract} (h : processAll now tnow l = Except.ok out)
    {v : ValidContract} (hv : v ∈ out) :
    ∃ c ∈ l, processContract now tnow c = ProcResult.ok v := by
  induction l generalizing out with
  | nil =>
    simp only [processAll] at h
    cases h
    cases hv
  | cons c rest ih =>
    unfold processAll at h
    cases hp : processContract now tnow c with
    | crash => rw [hp] at h; cases h
    | skip =>
      rw [hp] at h
      obtain ⟨c', hc', hp'⟩ := ih h hv
      exact ⟨c', List.mem_cons_of_mem _ hc', hp'⟩
    | expired =>
      rw [hp] at h
      obtain ⟨c', hc', hp'⟩ := ih h hv
      exact ⟨c', List.mem_cons_of_mem _ hc', hp'⟩
    | ok w =>
      rw [hp] at h
      cases hr : processAll now tnow rest with
      | error e => rw [hr] at h; cases h
      | ok rest_out =>
        rw [hr] at h
        simp only [Except.map] at h
        cases h
        rcases List.mem_cons.mp hv with rfl | hv'
        · exact ⟨c, List.mem_cons_self _ _, hp⟩
        · obtain ⟨c', hc', hp'⟩ := ih hr hv'
          exact ⟨c', List.mem_cons_of_mem _ hc', hp'⟩

theorem mem_insertByScore {x a : ValidContract} {l : List ValidContract} :
    x ∈ insertByScore a l ↔ x = a ∨ x ∈ l := by
  induction l with
  | nil => simp [insertByScore]
  | cons y ys ih =>
    unfold insertByScore
    split
    · simp only [List.mem_cons, ih]
      tauto
    · simp only [List.mem_cons]

theorem mem_sortDesc {x : ValidContract} {l : List ValidContract} :
    x ∈ sortDesc l ↔ x ∈ l := by
  induction l with
  | nil => simp [sortDesc]
  | cons y ys ih =>
    unfold sortDesc
    rw [mem_insertByScore]
    simp only [List.mem_cons, ih]

theorem rank_mem {now tnow : Int} {l : List RawContract}
    {out : List ValidContract} (h : rank_contracts now tnow l = Except.ok out)
    {v : ValidContract} (hv : v ∈ out) :
    ∃ c ∈ l, processContract now tnow c = ProcResult.ok v := by
  unfold rank_contracts at h
  cases hp : processAll now tnow l with
  | error e => rw [hp] at h; cases h
  | ok valid =>
    rw [hp] at h
    dsimp only at h
    by_cases hvn : valid = []
    · rw [if_pos hvn] at h
      cases h
      cases hv
    · rw [if_neg hvn] at h
      cases h
      have hx : v ∈ sortDesc valid := List.take_subset _ _ hv
      exact processAll_mem hp (mem_sortDesc.mp hx)

/-! ### Claim C1 -/

/-- Claim C1: contrary to the claim, `setup_database` does not leave
existing announced-contract entries present: its unconditional
`DROP TABLE IF EXISTS contracts` silently discards every existing row on
ordinary startup, so a store holding `row0` comes back empty. -/
theorem setup_database_discards_rows :
    setup_database { contracts := some [row0] } = { contracts := some [] } ∧
    row0 ∉ (setup_database { contracts := some [row0] }).contracts.getD [] := by
  constructor
  · rfl
  · simp [setup_database, dropTableIfExists, createTableIfNotExists]

/-! ### Claim C2 -/

/-- Claim C2 counterexample: a record whose award amount parses to the
negative number -10,000,000 survives filtering and is scored
`min(50, -10000000/100000) = -100`, so the total score of a ranked entry
can lie outside `[0, 100]`. -/
theorem rank_score_bounds_cex :
    (rank_contracts 0 0 [cNeg]).map (List.map ValidContract.score) =
      Except.ok [-100] ∧ ¬ (0 : ℚ) ≤ -100 := by
  constructor
  · norm_num +decide [rank_contracts, processAll, processContract,
      resolveValue, parseDeadline, expiredCheck, valueScore, urgencyScore,
      setAsideScore, mkValid, truthyStr, agencyOf, splitDot, splitDotAux,
      locationOf, missingFieldsOf, setAsideDescOf, cNeg, blankRec, sortDesc,
      insertByScore, min_def, Except.map]
  · norm_num

/-- Claim C2 (amended): every entry of a successful `rank_contracts` output
has score at most `100` unconditionally (`value_score = min(50, v/100000) ≤
50`, `urgency_score ∈ [0,30]`, `set_aside_score ∈ {0,10,15,20}`); the score
is additionally at least `0` whenever every contract value that parses in
the batch is nonnegative (a negative parsed value can push `value_score`,
and hence the total, below `0`). -/
theorem rank_score_bounds (now tnow : Int) (l : List RawContract)
    (out : List ValidContract) (h : rank_contracts now tnow l = Except.ok out)
    (v : ValidContract) (hv : v ∈ out) :
    v.score ≤ 100 ∧
    ((∀ c ∈ l, ∀ q, resolveValue c = Except.ok (some q) → 0 ≤ q) →
      0 ≤ v.score) := by
  obtain ⟨c, hc, hp⟩ := rank_mem h hv
  obtain ⟨value, hres, hs⟩ := score_decomp hp
  have h1 := valueScore_le value
  have h3 := urgencyScore_nonneg (parseDeadline now c.responseDeadLine).2
  have h4 := urgencyScore_le (parseDeadline now c.responseDeadLine).2
  have h5 := setAsideScore_nonneg (c.typeOfSetAside.getD "")
  have h6 := setAsideScore_le (c.typeOfSetAside.getD "")
  constructor
  · rw [hs]; linarith
  · intro hval
    have h2 := valueScore_nonneg value (fun q hq => hval c hc q (by rw [hres, hq]))
    rw [hs]; linarith

/-- Claim C2 witness: the amended bounds hold at the concrete one-record
batch `[cBig]`, whose entry scores exactly 50. -/
theorem rank_score_bounds_w : entryBig.score ≤ 100 ∧ 0 ≤ entryBig.score := by
  have hb := rank_score_bounds 0 0 [cBig] [entryBig] (by
    norm_num +decide [rank_contracts, processAll, processContract,
      resolveValue, parseDeadline, expiredCheck, valueScore, urgencyScore,
      setAsideScore, mkValid, truthyStr, agencyOf, splitDot, splitDotAux,
      locationOf, missingFieldsOf, setAsideDescOf, cBig, blankRec, entryBig,
      sortDesc, insertByScore, min_def, Except.map]) entryBig (by simp)
  refine ⟨hb.1, hb.2 ?_⟩
  intro c hc q hq
  simp only [List.mem_singleton] at hc
  subst hc
  simp only [resolveValue, cBig, blankRec] at hq
  cases hq
  norm_num

/-! ### Claim C3 -/

/-- Claim C3 counterexample: Scenario A (award amount $2,000,000, deadline
equal to `now`, set-aside SDVOSB) actually scores
`min(50, 2000000/100000) + 30 + 20 = 70`, not 100: the code gives one point
per $100k (`value / 100000`), not the claimed `value / 100000 * 0.5`, and
caps the sub-score at 20 points here, not 50. -/
theorem scenarioA_score_cex :
    (rank_contracts 0 0 [scenarioA]).map (List.map ValidContract.score) =
      Except.ok [70] ∧ (70 : ℚ) ≠ 100 := by
  constructor
  · norm_num +decide [rank_contracts, processAll, processContract,
      resolveValue, parseDeadline, expiredCheck, valueScore, urgencyScore,
      setAsideScore, mkValid, truthyStr, agencyOf, splitDot, splitDotAux,
      locationOf, missingFieldsOf, setAsideDescOf, scenarioA, blankRec,
      sortDesc, insertByScore, min_def, max_def, Except.map]
  · norm_num

/-- Claim C3 (amended): for a present value `v` the value sub-score is
`min(50, v / 100000)` (one point per $100k, with no `* 0.5` factor), and an
absent value yields `0`; on Scenario A this gives `value_score = 20`,
`urgency_score = 30`, `set_aside_score = 20`, total score `70`. -/
theorem value_score_formula :
    (∀ v : ℚ, valueScore (some v) = min 50 (v / 100000)) ∧
    valueScore none = 0 ∧
    valueScore (some 2000000) = 20 ∧
    urgencyScore (some 0) = 30 ∧
    setAsideScore "SDVOSB" = 20 ∧
    (rank_contracts 0 0 [scenarioA]).map (List.map ValidContract.score) =
      Except.ok [70] := by
  refine ⟨?_, rfl, ?_, ?_, by norm_num [setAsideScore], ?_⟩
  · intro v
    by_cases h : v = 0
    · subst h
      norm_num [valueScore, min_def]
    · simp [valueScore, h]
  · norm_num [valueScore, min_def]
  · norm_num [urgencyScore, min_def, max_def]
  · norm_num +decide [rank_contracts, processAll, processContract,
      resolveValue, parseDeadline, expiredCheck, valueScore, urgencyScore,
      setAsideScore, mkValid, truthyStr, agencyOf, splitDot, splitDotAux,
      locationOf, missingFieldsOf, setAsideDescOf, scenarioA, blankRec,
      sortDesc, insertByScore, min_def, max_def, Except.map]

/-! ### Claim C4 -/

/-- Claim C4: for a record lacking an explicit identifier, the stored id is
`f"{contract['title']}_{int(time.time())}"`: normalizing the same record
(same title, same deadline) in a run at epoch second 100 and in a run at
epoch second 200 yields two different ids, so the synthesized id is not a
function of (title, deadline) and two runs of the same input disagree.  (The
deterministic title+date id computed on line 230 is discarded unused.) -/
theorem synthesized_id_depends_on_clock :
    (rank_contracts 0 100 [noIdRec]).map (List.map ValidContract.id) =
      Except.ok ["Road Repair_100"] ∧
    (rank_contracts 0 200 [noIdRec]).map (List.map ValidContract.id) =
      Except.ok ["Road Repair_200"] ∧
    "Road Repair_100" ≠ "Road Repair_200" := by
  refine ⟨?_, ?_, by decide⟩ <;>
    norm_num +decide [rank_contracts, processAll, processContract,
      resolveValue, parseDeadline, expiredCheck, valueScore, urgencyScore,
      setAsideScore, mkValid, truthyStr, agencyOf, splitDot, splitDotAux,
      locationOf, missingFieldsOf, setAsideDescOf, noIdRec, blankRec,
      sortDesc, insertByScore, min_def, max_def, Except.map]

/-! ### Claim C5 -/

/-- Claim C5 counterexample: two identical records with no explicit id (same
title, same deadline) are both ranked: the output holds two entries bearing
the same id "T_5", so the batch is not deduplicated by id. -/
theorem dedup_cex :
    (rank_contracts 0 5 [dupRec, dupRec]).map (List.map ValidContract.id) =
      Except.ok ["T_5", "T_5"] := by
  norm_num +decide [rank_contracts, processAll, processContract,
    resolveValue, parseDeadline, expiredCheck, valueScore, urgencyScore,
    setAsideScore, mkValid, truthyStr, agencyOf, splitDot, splitDotAux,
    locationOf, missingFieldsOf, setAsideDescOf, dupRec, blankRec,
    sortDesc, insertByScore, min_def, max_def, Except.map]

/-- Claim C5 (amended): `rank_contracts` performs no within-batch
deduplication: a record that processes to entry `v` contributes one entry
per occurrence, so the batch `[r, r]` returns `[v, v]` — two ranked entries
with the same id. -/
theorem rank_keeps_duplicates (now tnow : Int) (r : RawContract)
    (v : ValidContract) (h : processContract now tnow r = ProcResult.ok v) :
    rank_contracts now tnow [r, r] = Except.ok [v, v] := by
  unfold rank_contracts processAll processAll processAll
  rw [h]
  simp [Except.map, sortDesc, insertByScore, lt_irrefl]

/-- Claim C5 witness: the duplicate-preserving behaviour at the concrete
batch `[dupRec, dupRec]`. -/
theorem rank_keeps_duplicates_w :
    rank_contracts 0 5 [dupRec, dupRec] = Except.ok [dupEntry, dupEntry] :=
  rank_keeps_duplicates 0 5 dupRec dupEntry (by
    norm_num +decide [processContract, resolveValue, parseDeadline,
      expiredCheck, valueScore, urgencyScore, setAsideScore, mkValid,
      truthyStr, agencyOf, splitDot, splitDotAux, locationOf,
      missingFieldsOf, setAsideDescOf, dupRec, blankRec, dupEntry,
      min_def, max_def, fdiv_1000_86400])

/-! ### Claim C6 -/

theorem mkValid_ne_expired {tnow : Int} {c : RawContract} {value : Option ℚ}
    {deadline : Option Int} {s : ℚ} :
    mkValid tnow c value deadline s ≠ ProcResult.expired := by
  unfold mkValid
  cases c.title <;> simp

theorem mkValid_ne_crash {tnow : Int} {c : RawContract} {value : Option ℚ}
    {deadline : Option Int} {s : ℚ} :
    mkValid tnow c value deadline s ≠ ProcResult.crash := by
  unfold mkValid
  cases c.title <;> simp

theorem mkValid_of_title_none {tnow : Int} {c : RawContract}
    {value : Option ℚ} {deadline : Option Int} {s : ℚ}
    (h : c.title = none) :
    mkValid tnow c value deadline s = ProcResult.skip := by
  unfold mkValid
  rw [h]

/-- Claim C6 counterexample: an opportunity with an absent deadline is not
always retained: on `openEndedRec` (absent deadline, title present, no
`id`/`noticeId` key) `rank_contracts` raises the uncaught `AttributeError`
from `deadline.strftime(...)` on line 230, so the call aborts and retains
nothing. -/
theorem absent_deadline_not_retained_cex :
    rank_contracts 0 0 [openEndedRec] = Except.error () := by
  norm_num +decide [rank_contracts, processAll, processContract,
    resolveValue, parseDeadline, expiredCheck, valueScore, urgencyScore,
    setAsideScore, mkValid, truthyStr, openEndedRec, blankRec]

/-- Claim C6 (amended): a record whose deadline parses to a time strictly
before `now` never becomes an output entry — it is dropped by the expiry
check, or already skipped by a value parse error; a record with an absent
deadline is never dropped by the expiry check (though it can be skipped, or
crash the run when it also lacks `id`/`noticeId`); and every entry of a
successful `rank_contracts` output stems from some input record. -/
theorem expiry_filter :
    (∀ now tnow : Int, ∀ c : RawContract, ∀ t : Int,
      c.responseDeadLine = RawDeadline.time t → t < now →
      processContract now tnow c = ProcResult.skip ∨
      processContract now tnow c = ProcResult.expired) ∧
    (∀ now tnow : Int, ∀ c : RawContract,
      c.responseDeadLine = RawDeadline.missing →
      processContract now tnow c ≠ ProcResult.expired) ∧
    (∀ now tnow : Int, ∀ l : List RawContract, ∀ out : List ValidContract,
      rank_contracts now tnow l = Except.ok out →
      ∀ v ∈ out, ∃ c ∈ l, processContract now tnow c = ProcResult.ok v) := by
  refine ⟨?_, ?_, fun now tnow l out h v hv => rank_mem h hv⟩
  · intro now tnow c t hdl hlt
    unfold processContract
    cases hv : resolveValue c with
    | error e => exact Or.inl rfl
    | ok value =>
      rw [hdl]
      have hneg : Int.fdiv (t - now) 86400 < 0 :=
        Int.fdiv_neg' (by omega) (by omega)
      simp [parseDeadline, expiredCheck, hneg]
  · intro now tnow c hdl
    unfold processContract
    cases hv : resolveValue c with
    | error e => simp
    | ok value =>
      rw [hdl]
      simp only [parseDeadline, expiredCheck]
      split
      · simp_all
      · split
        · exact mkValid_ne_expired
        · split
          · exact mkValid_ne_expired
          · split
            · simp
            · simp

/-- Claim C6 witness: the expiry half of the amended claim applied to the
concrete expired record `cExpired` at `now = 0`. -/
theorem expiry_filter_w :
    processContract 0 0 cExpired = ProcResult.skip ∨
    processContract 0 0 cExpired = ProcResult.expired :=
  expiry_filter.1 0 0 cExpired (-100000) rfl (by norm_num)

/-! ### Claim C7 -/

theorem pairwise_insertByScore {a : ValidContract} {l : List ValidContract}
    (h : l.Pairwise (fun x y => y.score ≤ x.score)) :
    (insertByScore a l).Pairwise (fun x y => y.score ≤ x.score) := by
  induction l with
  | nil => simp [insertByScore]
  | cons y ys ih =>
    rw [List.pairwise_cons] at h
    obtain ⟨hy, hys⟩ := h
    unfold insertByScore
    split
    · rename_i hlt
      rw [List.pairwise_cons]
      refine ⟨?_, ih hys⟩
      intro x hx
      rcases mem_insertByScore.mp hx with rfl | hx'
      · exact le_of_lt hlt
      · exact hy x hx'
    · rename_i hnlt
      rw [List.pairwise_cons]
      refine ⟨?_, List.pairwise_cons.mpr ⟨hy, hys⟩⟩
      intro x hx
      rcases List.mem_cons.mp hx with rfl | hx'
      · exact le_of_not_lt hnlt
      · exact le_trans (hy x hx') (le_of_not_lt hnlt)

theorem pairwise_sortDesc (l : List ValidContract) :
    (sortDesc l).Pairwise (fun x y => y.score ≤ x.score) := by
  induction l with
  | nil => simp [sortDesc]
  | cons x xs ih =>
    unfold sortDesc
    exact pairwise_insertByScore ih

/-- Claim C7 counterexample: two tied entries (both score 0) keep their
input order `["b", "a"]` — ties are not broken by earlier deadline or
lexicographic id, which would place `"a"` (lexicographically smaller, equal
absent deadlines) first. -/
theorem sort_tiebreak_cex :
    (rank_contracts 0 0 [rB, rA]).map (List.map ValidContract.id) =
      Except.ok ["b", "a"] ∧
    (rank_contracts 0 0 [rB, rA]).map (List.map ValidContract.score) =
      Except.ok [0, 0] ∧
    (["b", "a"] : List String) ≠ ["a", "b"] := by
  refine ⟨?_, ?_, by decide⟩ <;>
    norm_num +decide [rank_contracts, processAll, processContract,
      resolveValue, parseDeadline, expiredCheck, valueScore, urgencyScore,
      setAsideScore, mkValid, truthyStr, agencyOf, splitDot, splitDotAux,
      locationOf, missingFieldsOf, setAsideDescOf, rA, rB, blankRec,
      sortDesc, insertByScore, min_def, max_def, Except.map]

/-- Claim C7 (amended): the output of `rank_contracts` is sorted in
descending order of score; equal scores keep their first-seen input order
(Python's stable sort), with no deadline or id tiebreak. -/
theorem rank_sorted (now tnow : Int) (l : List RawContract)
    (out : List ValidContract)
    (h : rank_contracts now tnow l = Except.ok out) :
    out.Pairwise (fun x y => y.score ≤ x.score) := by
  unfold rank_contracts at h
  cases hp : processAll now tnow l with
  | error e => rw [hp] at h; cases h
  | ok valid =>
    rw [hp] at h
    dsimp only at h
    by_cases hvn : valid = []
    · rw [if_pos hvn] at h
      cases h
      simp
    · rw [if_neg hvn] at h
      cases h
      exact (pairwise_sortDesc valid).sublist (List.take_sublist _ _)

/-- Claim C7 witness: the sortedness of the output at the concrete batch
`[rB]`. -/
theorem rank_sorted_w :
    List.Pairwise (fun x y => ValidContract.score y ≤ ValidContract.score x)
      [plainEntry "T" "b"] :=
  rank_sorted 0 0 [rB] [plainEntry "T" "b"] (by
    norm_num +decide [rank_contracts, processAll, processContract,
      resolveValue, parseDeadline, expiredCheck, valueScore, urgencyScore,
      setAsideScore, mkValid, truthyStr, agencyOf, splitDot, splitDotAux,
      locationOf, missingFieldsOf, setAsideDescOf, rB, blankRec, plainEntry,
      sortDesc, insertByScore, min_def, max_def, Except.map])

/-! ### Claim C8 -/

/-- Claim C8 counterexample: under a publisher that fails transiently twice
and succeeds on the third attempt, `post_contract_tweet` does make exactly 3
publish calls and 2 backoff delays and returns success — but it commits 0
ledger writes, not the 1 the claim asserts: the function body (and its only
caller, `main`) contains no database operation at all. -/
theorem post_no_ledger_write_cex :
    post_contract_tweet (fun n => decide (n = 3)) =
      { calls := 3, sleeps := 2, ledgerWrites := 0, result := true } ∧
    (0 : Nat) ≠ 1 := by
  exact ⟨by decide, by decide⟩

/-- Claim C8 (amended): when publishing fails on the first two attempts and
succeeds on the third, `post_contract_tweet` makes exactly 3 publish calls
with 2 backoff delays and returns success — but performs no ledger write;
when all `max_retries = 3` attempts fail it returns `False` without raising,
so a caller's loop would continue with the next opportunity. -/
theorem post_retry_behavior :
    (∀ publish : Nat → Bool, publish 1 = false → publish 2 = false →
      publish 3 = true →
      post_contract_tweet publish =
        { calls := 3, sleeps := 2, ledgerWrites := 0, result := true }) ∧
    (∀ publish : Nat → Bool, (∀ n, publish n = false) →
      post_contract_tweet publish =
        { calls := 3, sleeps := 2, ledgerWrites := 0, result := false }) := by
  constructor
  · intro p h1 h2 h3
    simp [post_contract_tweet, tweetLoop, h1, h2, h3]
  · intro p h
    simp [post_contract_tweet, tweetLoop, h]

/-- Claim C8 witness: the retry schedule at the concrete publisher that
succeeds only on its third call. -/
theorem post_retry_behavior_w :
    post_contract_tweet (fun n => decide (n = 3)) =
      { calls := 3, sleeps := 2, ledgerWrites := 0, result := true } :=
  post_retry_behavior.1 (fun n => decide (n = 3)) rfl rfl rfl

/-! ### Claim C9 -/

/-- Claim C9: an unparseable deadline is not always non-fatal: on
`badDeadlineRec` (unparseable deadline string, title present, no
`id`/`noticeId` key) the deadline does become absent with a warning, but the
dead `contract_id` expression on line 230 then evaluates
`deadline.strftime('%Y%m%d')` with `deadline = None`, and the resulting
`AttributeError` is not caught by the `except (ValueError, KeyError)`
handler: `rank_contracts` aborts instead of completing. -/
theorem unparseable_deadline_crashes :
    rank_contracts 0 0 [badDeadlineRec] = Except.error () := by
  norm_num +decide [rank_contracts, processAll, processContract,
    resolveValue, parseDeadline, expiredCheck, valueScore, urgencyScore,
    setAsideScore, mkValid, truthyStr, badDeadlineRec, blankRec]

/-! ### Claim C10 -/

/-- Claim C10 counterexample: a record whose title is present but empty is
not skipped: `rank_contracts` returns an entry (with empty title) for
`empTitleRec`, so "skipped if and only if title is absent or empty" fails. -/
theorem empty_title_not_skipped_cex :
    (rank_contracts 0 0 [empTitleRec]).map (List.map ValidContract.title) =
      Except.ok [""] := by
  norm_num +decide [rank_contracts, processAll, processContract,
    resolveValue, parseDeadline, expiredCheck, valueScore, urgencyScore,
    setAsideScore, mkValid, truthyStr, agencyOf, splitDot, splitDotAux,
    locationOf, missingFieldsOf, setAsideDescOf, empTitleRec, blankRec,
    sortDesc, insertByScore, min_def, max_def, Except.map]

/-- Claim C10 (amended): a record is dropped without crashing when its
title key is absent (never reaching the output), and also skipped when a
present value field fails numeric parsing; a present-but-empty title is
processed normally; and a record carrying only a title and a truthy
`noticeId` is normalized with the defaults actually substituted by the
code: set-aside `"Open Competition"`, estimated value absent, deadline
absent, and agency the empty string (not `"Federal Government"`, whose
fallback is unreachable). -/
theorem title_skip_and_defaults :
    (∀ now tnow : Int, ∀ c : RawContract, c.title = none →
      processContract now tnow c = ProcResult.skip ∨
      processContract now tnow c = ProcResult.expired) ∧
    (∀ now tnow : Int, ∀ c : RawContract, c.award_amount = RawNum.bad →
      processContract now tnow c = ProcResult.skip) ∧
    (∀ now tnow : Int, ∀ t n : String, n ≠ "" →
      processContract now tnow (plainRec t n) =
        ProcResult.ok (plainEntry t n)) := by
  refine ⟨?_, ?_, ?_⟩
  · intro now tnow c ht
    unfold processContract
    cases hv : resolveValue c with
    | error e => exact Or.inl rfl
    | ok value =>
      dsimp only
      split
      · exact Or.inr rfl
      · split
        · exact Or.inl (mkValid_of_title_none ht)
        · split
          · exact Or.inl (mkValid_of_title_none ht)
          · split
            · exact Or.inl rfl
            · rename_i t heq
              rw [ht] at heq
              cases heq
  · intro now tnow c ha
    unfold processContract resolveValue
    rw [ha]
  · intro now tnow t n hn
    norm_num +decide [processContract, resolveValue, parseDeadline,
      expiredCheck, valueScore, urgencyScore, setAsideScore, mkValid,
      truthyStr, agencyOf, splitDot, splitDotAux, locationOf,
      missingFieldsOf, setAsideDescOf, plainRec, plainEntry, blankRec, hn]

/-- Claim C10 witness: the default-substituting normalization at the
concrete record with title `"Hello"` and notice id `"N1"`. -/
theorem title_skip_and_defaults_w :
    processContract 0 0 (plainRec "Hello" "N1") =
      ProcResult.ok (plainEntry "Hello" "N1") :=
  title_skip_and_defaults.2.2 0 0 "Hello" "N1" (by decide)
